import Mathlib

/-!
Verification of the parking reservation system against its specification.

The source is a Flask application (`src/app.py`, `src/utils.py`).  Its core
state is a global dict `data` mapping spot identifiers to reservation dicts
`{"n": name, "d": date}`, persisted to `data.json` via `json.dump`/`json.load`,
with a secondary `backup.json` and an append-only `actions.json` log.

We embed that state shallowly:
* the global dict `data` as an association list `Ledger` (Python dicts have
  unique keys and preserve insertion order; assignment replaces a value in
  place, `del` removes the key);
* the content of `data.json` as `PrimaryFile` (`missing` = file absent,
  `invalid` = content `json.load` rejects, `stored j` = a parsed JSON value);
* each write that the code wraps in `try/except: pass` takes a `Bool`
  parameter telling whether the OS write succeeds; on `false` the file is
  unchanged and no error propagates, exactly as the blanket `except` behaves;
* `datetime.now()` is passed in as an explicit timestamp string.

Each Flask route handler of `app.py` becomes a total function on `AppState`:
the handlers always answer with an HTTP redirect and expose no error channel,
which the totality of these functions reflects.
-/

/-- A reservation record, the Python dict `{"n": name, "d": date}`. -/
structure Reservation where
  n : String
  d : String
deriving DecidableEq, Repr

/-- The global `data` dict: spot identifier → reservation, unique keys,
insertion order preserved. -/
def Ledger : Type := List (String × Reservation)

instance : DecidableEq Ledger := by
  unfold Ledger
  infer_instance

/-- JSON values as far as this application ever produces or consumes them:
`json.dump` applied to the `data` dict emits only string leaves and objects. -/
inductive Json where
  | str (s : String)
  | obj (fields : List (String × Json))

/-- Python `data[k] = v`: replace the value in place if the key is present
(position preserved), otherwise append the new entry at the end. -/
def dictSet (l : Ledger) (k : String) (v : Reservation) : Ledger :=
  match l with
  | [] => [(k, v)]
  | (k2, v2) :: t => if k2 = k then (k2, v) :: t else (k2, v2) :: dictSet t k v

/-- Python `del data[k]` guarded by `try/except: pass`: remove the entry for
`k` when present, otherwise leave the dict unchanged.  On a dict (unique
keys) removing every occurrence coincides with removing the one entry. -/
def dictDel (l : Ledger) (k : String) : Ledger :=
  match l with
  | [] => []
  | (k2, v2) :: t => if k2 = k then dictDel t k else (k2, v2) :: dictDel t k

/-- Python `data.get(k)` / `k in data`: first value bound to `k`, if any. -/
def dictLookup (l : Ledger) (k : String) : Option Reservation :=
  match l with
  | [] => none
  | (k2, v2) :: t => if k2 = k then some v2 else dictLookup t k

/-- `json.dump` on one reservation dict: `{"n": ..., "d": ...}`. -/
def encodeReservation (r : Reservation) : Json :=
  .obj [("n", .str r.n), ("d", .str r.d)]

/-- Reading back a reservation object written by `encodeReservation`. -/
def decodeReservation (j : Json) : Option Reservation :=
  match j with
  | .obj [("n", .str n), ("d", .str d)] => some ⟨n, d⟩
  | _ => none

/-- `json.dump(data, f)`: the whole ledger as one JSON object, entries in
dict order. -/
def encodeLedger (l : Ledger) : Json :=
  .obj (l.map fun p => (p.1, encodeReservation p.2))

/-- Reading back the entries of a ledger object, all of which must be
reservation objects. -/
def decodeEntries (fields : List (String × Json)) : Option Ledger :=
  match fields with
  | [] => some []
  | (k, j) :: t =>
    match decodeReservation j, decodeEntries t with
    | some r, some rest => some ((k, r) :: rest)
    | _, _ => none

/-- Parsing the primary store back into a ledger. -/
def decodeLedger (j : Json) : Option Ledger :=
  match j with
  | .obj fields => decodeEntries fields
  | _ => none

/-- Content of a JSON file on disk. -/
inductive PrimaryFile where
  | missing
  | invalid
  | stored (j : Json)

/-- The file-backed state the routes of `app.py` manipulate. -/
structure AppState where
  data : Ledger
  filePath : PrimaryFile
  backupFile : PrimaryFile
  logFile : List (String × String)

/-- `load_data()` (src/app.py:67-74): if the file exists, `data` becomes its
parsed content; a parse failure is swallowed and `data` reset to `{}`; a
missing file leaves `data` untouched.  A stored JSON value that is not a
ledger-shaped object corresponds to `json.load` succeeding with a value of
the wrong type; no state reachable through the application writes such a
file, and we normalise it to the empty map. -/
def loadData (file : PrimaryFile) (d : Ledger) : Ledger :=
  match file with
  | .missing => d
  | .invalid => []
  | .stored j =>
    match decodeLedger j with
    | some l => l
    | none => []

/-- `load_data()` as a transition on the application state: only the global
`data` changes, and nothing is written to any file or diagnostic channel. -/
def loadDataSt (st : AppState) : AppState :=
  { st with data := loadData st.filePath st.data }

/-- `save_data()` (src/app.py:76-82): dump `data` to the primary file; a
write failure (`writeOk = false`) is swallowed by the blanket `except` and
leaves the file unchanged, with no error reported to the caller. -/
def saveData (writeOk : Bool) (st : AppState) : AppState :=
  if writeOk then { st with filePath := .stored (encodeLedger st.data) } else st

/-- `load_backup()` (src/app.py:84-89): parsed backup file, or `{}` on any
failure.  Its result is discarded by the only caller. -/
def loadBackup (file : PrimaryFile) : Ledger :=
  match file with
  | .stored j =>
    match decodeLedger j with
    | some l => l
    | none => []
  | _ => []

/-- `save_backup()` (src/app.py:93-101): dump `data` to the backup file,
then append `{"action": "backup", "time": now}` to the log file.  The single
`try` wraps both writes: if the backup write fails nothing happens; if the
log append fails the backup is still written.  No failure propagates. -/
def saveBackup (bOk lOk : Bool) (now : String) (st : AppState) : AppState :=
  if bOk then
    { st with
      backupFile := .stored (encodeLedger st.data)
      logFile := if lOk then st.logFile ++ [("backup", now)] else st.logFile }
  else st

/-- The slot catalog (src/app.py:13). -/
def spots : List String :=
  ["A1", "A2", "A3", "B1", "B2", "B3", "C1", "C2"]

/-- The `/add` route (src/app.py:123-136), the named-spot booking path:
reload `data`, read (and discard) the backup, assign
`data[spot] = {"n": name, "d": date}` unconditionally, save, back up, and
answer with a redirect.  No catalog membership check, no occupancy check,
no authentication check, and no error result exist in the handler. -/
def add (spot name date now : String) (writeOk bOk lOk : Bool)
    (st : AppState) : AppState :=
  let st1 := loadDataSt st
  let _ := loadBackup st1.backupFile
  let st2 := { st1 with data := dictSet st1.data spot ⟨name, date⟩ }
  let st3 := saveData writeOk st2
  saveBackup bOk lOk now st3

/-- The `/book` route (src/app.py:138-145), the legacy quick-booking path:
reload `data`, assign `data[spot] = {"n": "Quick Booking", "d": today}` for
the spot given in the query string, save, redirect.  It books exactly the
requested spot — it never consults the catalog `spots`, never scans for a
free spot, and accepts no occupant name. -/
def book (spot today : String) (writeOk : Bool) (st : AppState) : AppState :=
  let st1 := loadDataSt st
  let st2 := { st1 with data := dictSet st1.data spot ⟨"Quick Booking", today⟩ }
  saveData writeOk st2

/-- The `/del` route (src/app.py:147-157), the release path: reload `data`,
`del data[spot]` inside `try/except: pass`, save, redirect. -/
def delete (spot : String) (writeOk : Bool) (st : AppState) : AppState :=
  let st1 := loadDataSt st
  let st2 := { st1 with data := dictDel st1.data spot }
  saveData writeOk st2

/-- A Python value, as far as the dynamically typed signature of
`validate_user_input` is concerned. -/
inductive PyValue where
  | none
  | str (s : String)
  | int (n : Int)
  | list (l : List PyValue)
  | dict (l : List (PyValue × PyValue))
  | bool (b : Bool)

/-- `validate_user_input` (src/utils.py:20-22): performs no validation and
returns `True` for every input. -/
def validate_user_input (_ : PyValue) : Bool :=
  true

/-- The primary file is exactly the serialization of the in-memory ledger:
the situation after any successful `save_data()`. -/
def Consistent (st : AppState) : Prop :=
  st.filePath = .stored (encodeLedger st.data)

/-! ## Helper lemmas -/

theorem decodeReservation_encodeReservation (r : Reservation) :
    decodeReservation (encodeReservation r) = some r := by
  cases r
  rfl

theorem decodeLedger_encodeLedger (l : Ledger) :
    decodeLedger (encodeLedger l) = some l := by
  induction l with
  | nil => rfl
  | cons p t ih =>
    obtain ⟨k, r⟩ := p
    simp only [encodeLedger, decodeLedger, List.map_cons, decodeEntries,
      decodeReservation_encodeReservation]
    simp only [encodeLedger, decodeLedger] at ih
    rw [ih]

theorem loadData_stored_encode (l d : Ledger) :
    loadData (.stored (encodeLedger l)) d = l := by
  simp [loadData, decodeLedger_encodeLedger]

theorem dictDel_dictDel (l : Ledger) (k : String) :
    dictDel (dictDel l k) k = dictDel l k := by
  induction l with
  | nil => rfl
  | cons p t ih =>
    obtain ⟨k2, v⟩ := p
    by_cases h : k2 = k
    · simp [dictDel, h, ih]
    · simp [dictDel, h, ih]

theorem dictDel_of_lookup_none (l : Ledger) (k : String)
    (h : dictLookup l k = none) : dictDel l k = l := by
  induction l with
  | nil => rfl
  | cons p t ih =>
    obtain ⟨k2, v⟩ := p
    by_cases hk : k2 = k
    · simp [dictLookup, hk] at h
    · simp [dictLookup, hk] at h
      simp [dictDel, hk, ih h]

/-! ## Claim theorems -/

/-- C1: the specification demands that booking an occupied spot fail with
`AlreadyReserved` and leave the existing reservation untouched.  The `/add`
handler has no occupancy check: with `A1` already reserved by Alice, adding
a reservation for Bob on `A1` silently overwrites the record held by Alice and the
handler answers with its usual success redirect — no error value exists in
its type. -/
theorem add_overwrites_occupied_spot :
    (add "A1" "Bob" "2025-01-02" "T" true true true
      ⟨[("A1", ⟨"Alice", "2025-01-01"⟩)],
        .stored (encodeLedger [("A1", ⟨"Alice", "2025-01-01"⟩)]),
        .missing, []⟩).data
      = [("A1", ⟨"Bob", "2025-01-02"⟩)] := by
  rfl

/-- C2: the specification demands that a failed durable commit surface as
`PersistenceFailed` with the in-memory mutation rolled back.  When the
primary-store write fails (`writeOk = false`), the `/add` handler swallows
the exception: the in-memory ledger keeps the new reservation for `A1`, the
durable store is unchanged, and the handler still answers with its success
redirect, so a subsequent query of the in-memory map shows `A1` reserved. -/
theorem add_keeps_mutation_on_failed_commit :
    (add "A1" "Alice" "2025-01-01" "T" false false false
      ⟨[], .missing, .missing, []⟩).data
      = [("A1", ⟨"Alice", "2025-01-01"⟩)] ∧
    (add "A1" "Alice" "2025-01-01" "T" false false false
      ⟨[], .missing, .missing, []⟩).filePath = .missing := by
  exact ⟨rfl, rfl⟩

/-- C3: load after commit is the identity.  For every application state —
in particular the empty, one-entry and all-spots-occupied ledgers — running
`save_data()` with a successful write and then `load_data()` leaves the
state fixed, and the in-memory ledger it reproduces is exactly the one that
was committed. -/
theorem save_then_load_roundtrip (st : AppState) :
    loadDataSt (saveData true st) = saveData true st ∧
    (loadDataSt (saveData true st)).data = st.data := by
  constructor
  · simp [saveData, loadDataSt, loadData_stored_encode]
  · simp [saveData, loadDataSt, loadData_stored_encode]

/-- C4: the quick-book of the specification scans the catalog in order, books the
first free spot, and fails with `Exhausted` when none is free.  The `/book`
handler does none of this: with `A1` occupied by Alice it books exactly the
spot named in the query string, overwriting `A1` with occupant
`"Quick Booking"`; it never consults `spots`, cannot return a Reservation
bound to `A2`, takes no occupant argument, and has no error result. -/
theorem book_does_not_scan_catalog :
    (book "A1" "2025-01-01" true
      ⟨[("A1", ⟨"Alice", "2025-01-01"⟩)],
        .stored (encodeLedger [("A1", ⟨"Alice", "2025-01-01"⟩)]),
        .missing, []⟩).data
      = [("A1", ⟨"Quick Booking", "2025-01-01"⟩)] := by
  rfl

/-- C5: release is idempotent.  Running the `/del` handler twice on the same
spot gives exactly the state after the first run (the handler is a total
function, so the second call cannot error), and releasing a spot that is not
occupied leaves a consistent state completely unchanged. -/
theorem release_idempotent :
    (∀ (spot : String) (st : AppState),
      delete spot true (delete spot true st) = delete spot true st) ∧
    (∀ (spot : String) (st : AppState), Consistent st →
      dictLookup st.data spot = none → delete spot true st = st) := by
  constructor
  · intro spot st
    cases st
    simp [delete, loadDataSt, saveData, loadData_stored_encode, dictDel_dictDel]
  · intro spot st hc hl
    cases st with
    | mk d f b lg =>
      simp only [Consistent] at hc
      simp only at hl
      subst hc
      simp [delete, loadDataSt, saveData, loadData_stored_encode,
        dictDel_of_lookup_none _ _ hl]

/-- The one-reservation ledger used to witness `release_idempotent`. -/
def ledgerW : Ledger := [("A1", ⟨"Alice", "2025-01-01"⟩)]

/-- A consistent state holding `ledgerW`. -/
def stW : AppState := ⟨ledgerW, .stored (encodeLedger ledgerW), .missing, []⟩

/-- Witness for C5: releasing the unoccupied spot `A2` in the concrete
consistent state `stW` leaves the state unchanged. -/
theorem release_idempotent_witness : delete "A2" true stW = stW :=
  release_idempotent.2 "A2" stW rfl rfl

/-- C6: on a corrupt primary store, `load_data()` swallows the parse error
with its blanket `except`: the in-memory ledger becomes empty — the caller
indeed does not crash, the function being total — but the diagnostic log is
untouched and no error reaches any channel, where the specification demands
the corruption event be reported. -/
theorem load_corrupt_store_silent (d : Ledger) (b : PrimaryFile)
    (lg : List (String × String)) :
    loadDataSt ⟨d, .invalid, b, lg⟩ = ⟨[], .invalid, b, lg⟩ := by
  rfl

/-- C7: the specification demands `InvalidSpot` before any mutation when the
spot is outside the catalog.  The `/add` handler never consults `spots`:
the identifier `INVALID`, not in the catalog, is accepted and its
reservation installed and persisted. -/
theorem add_accepts_invalid_spot :
    "INVALID" ∉ spots ∧
    (add "INVALID" "Test User" "2025-06-25" "T" true true true
      ⟨[], .missing, .missing, []⟩).data
      = [("INVALID", ⟨"Test User", "2025-06-25"⟩)] := by
  exact ⟨by decide, rfl⟩

/-- C8: the specification demands that booking a specific named spot without
privilege fail with `Unauthorized` and apply no mutation.  The `/add`
handler performs no authentication or privilege check whatsoever — it takes
no privilege input and never reads the session — so an anonymous
named-spot booking succeeds and mutates the ledger. -/
theorem add_no_privilege_check :
    (add "A1" "Eve" "2025-01-01" "T" true true true
      ⟨[], .missing, .missing, []⟩).data
      = [("A1", ⟨"Eve", "2025-01-01"⟩)] := by
  rfl

/-- C9: the specification demands that a successful book append exactly one
audit record, a triple of kind `book`, the spot, and a timestamp.  A
successful `/add` appends exactly one record, but it is the pair
`("backup", timestamp)`: its action kind is `backup`, not `book`, and it
carries no spot at all (the record type of `save_backup` has no spot
field). -/
theorem add_audit_record_wrong_kind :
    (add "A1" "Alice" "2025-01-01" "T" true true true
      ⟨[], .missing, .missing, []⟩).logFile = [("backup", "T")] ∧
    ("backup" : String) ≠ "book" := by
  exact ⟨rfl, by decide⟩

/-- C10: `validate_user_input` rejects nothing: it returns `True` on every
input of every type — non-empty string, empty string, `None`, number, list
or dict — so validation at this interface is the constant `true`
function. -/
theorem validate_user_input_constant_true (v : PyValue) :
    validate_user_input v = true := by
  rfl
